import Mathlib

/-!
Verification of the local-disk user-avatar service.

Shallow embedding of the repository's storage module (`src/storage.py`,
class `LocalAvatarStorage`) and of the avatar endpoints of `main.py`
(`upload_user_avatar`, `delete_user_avatar`).

Modelling conventions:
* Python strings are `Str := List Char`; string literals enter the model
  through named constants built with `String.data`.
* Byte buffers are `Bytes := List Nat`; only their length and their sniffed
  media type matter to the code under verification, so content sniffing
  (`magic.from_buffer`) is a function parameter `sniff : Bytes → Option Str`
  (`none` models the sniffing call raising an exception).
* The file system is a finite state `FS`: the set of existing files, the set
  of existing directories, and the sets of paths on which `os.remove` /
  `open(..., "wb")` raise (modelling I/O failure as part of the environment).
* `os.path.join` is `osJoin sep`, with the host separator `sep`; the deployed
  model uses `posixJoin = osJoin '/'` (`os.sep = '/'`).  Python's
  `str.replace` (all non-overlapping occurrences, left to right) is
  `pyReplace`.
* `uuid.uuid4()` output is an input `uuidStr : Str` (hypotheses record that
  UUID text contains neither `'/'` nor `'\\'`).
* `HTTPException(status_code, detail)` is the failure type; the source's
  interpolated Chinese messages are modelled by their fixed prefixes.
* Database state is a `List User`; `session.commit()` failure is a Boolean
  environment input `commitFails` (similarly `readFails` for
  `file.file.read()`).  Each storage / endpoint operation also returns the
  list of disk-mutation events it performed, in order.
-/

abbrev Str := List Char

abbrev Bytes := List Nat

/-- Text of the string literal `"avatars"` (`storage.py` lines 66, 79, 90). -/
def avatarsS : Str := "avatars".data

/-- Text of the string literal `"/avatars"` (suffix form of the standard upload dir). -/
def slashAvatarsS : Str := "/avatars".data

/-- Text of the one-character string `"\\"` (`storage.py` line 80). -/
def backslashS : Str := "\\".data

/-- Text of the one-character string `"/"` (`storage.py` line 80). -/
def slashS : Str := "/".data

/-- Text of the empty string `""` (`storage.py` line 90). -/
def emptyS : Str := "".data

/-- Python `str.replace` scanner.  `replaceAux pat rep 0 l` scans `l` left to
right; on a match it emits `rep`, then skips the matched characters
(`pat.length - 1` of them beyond the current head, tracked by the `Nat`
argument).  This is the non-overlapping, all-occurrences semantics of
CPython's `str.replace`. -/
def replaceAux (pat rep : Str) : Nat → Str → Str
  | _, [] => []
  | Nat.succ k, _ :: rest => replaceAux pat rep k rest
  | 0, c :: rest =>
    if pat.isPrefixOf (c :: rest) then
      rep ++ replaceAux pat rep (pat.length - 1) rest
    else
      c :: replaceAux pat rep 0 rest

/-- Embedding of Python `s.replace(pat, rep)`. -/
def pyReplace (s pat rep : Str) : Str := replaceAux pat rep 0 s

/-- Embedding of Python `os.path.join(a, b)` for host separator `sep`,
restricted to the path shapes this repository builds: if `b` starts with the
separator it is taken as rooted and returned alone; otherwise `b` is appended
to `a`, inserting `sep` unless `a` is empty or already ends with `sep`. -/
def osJoin (sep : Char) (a b : Str) : Str :=
  if b.head? = some sep then b
  else if a = [] then b
  else if a.getLast? = some sep then a ++ b
  else a ++ sep :: b

/-- `os.path.join` on the modelled (POSIX) host, where `os.sep = '/'`. -/
def posixJoin : Str → Str → Str := osJoin '/'

/-- Decimal digit character, as produced by Python `str(int)`. -/
def digitChar (d : Nat) : Char := Char.ofNat (48 + d)

/-- Fuel-driven accumulator loop producing the decimal digits of `n` in front
of `acc` (most significant first). -/
def natStrGo : Nat → Nat → Str → Str
  | 0, _, acc => acc
  | fuel + 1, n, acc =>
    if n < 10 then digitChar (n % 10) :: acc
    else natStrGo fuel (n / 10) (digitChar (n % 10) :: acc)

/-- Embedding of Python `str(n)` for a natural number `n` (decimal digits,
most significant first; `str(0) = "0"`). -/
def natStr (n : Nat) : Str := natStrGo (n + 1) n []

/-- `fastapi.HTTPException(status_code=..., detail=...)` as raised by the
storage module and the endpoints. -/
structure HTTPException where
  status_code : Nat
  detail : Str
deriving DecidableEq

/-- Disk-mutation events, recorded by the model in the order the source
performs them. -/
inductive Event where
  | mkdir (d : Str)
  | write (p : Str)
  | remove (p : Str)
  | commit
deriving DecidableEq

/-- File-system state plus its I/O-failure environment: which paths exist as
files, which as directories, and on which paths `os.remove` respectively
`open(..., "wb").write` would raise. -/
structure FS where
  files : List Str
  dirs : List Str
  removeFails : List Str
  writeFails : List Str
deriving DecidableEq

/-- The configuration fields of `database.Settings` that the storage module
reads (`DATABASE_URL` is consumed only by the persistence engine, which is
external to the verified code). -/
structure Settings where
  UPLOAD_DIR : Str
  MAX_AVATAR_SIZE : Nat
  BASE_URL : Str
deriving DecidableEq

/-- A row of the `User` table (`models.py`): integer primary key, unique
username, optional avatar relative path. -/
structure User where
  id : Nat
  username : Str
  avatar_path : Option Str
deriving DecidableEq

/-- `session.get(User, user_id)`: fetch a user row by primary key. -/
def dbGet (db : List User) (uid : Nat) : Option User :=
  db.find? (fun u => u.id == uid)

/-- Persist a new avatar path on the user row (`user.avatar_path = p;
session.add(user); session.commit()`). -/
def dbSet (db : List User) (uid : Nat) (p : Option Str) : List User :=
  db.map (fun u => if u.id == uid then { u with avatar_path := p } else u)

/-- Python truthiness of `user.avatar_path` (`if user.avatar_path:`): both
`None` and the empty string are falsy. -/
def optTruthy : Option Str → Bool
  | none => false
  | some s => !s.isEmpty

/-- Detail text of the Chinese literal on `storage.py` line 34
(size over limit). -/
def detailTooLargeS : Str := "文件大小超过限制".data

/-- Detail text of the Chinese literal on `storage.py` line 42
(type sniffing raised). -/
def detailSniffS : Str := "文件类型验证失败".data

/-- Detail text of the Chinese literal on `storage.py` line 47
(sniffed type outside the allow-list). -/
def detailUnsupportedS : Str := "仅支持图片类型文件".data

/-- Detail text of the Chinese literal on `storage.py` line 74
(file write raised). -/
def detailWriteFailS : Str := "文件写入失败".data

/-- Detail text of the Chinese literal on `storage.py` line 92
(file removal raised). -/
def detailDeleteFailS : Str := "文件删除失败".data

/-- Detail text of the Chinese literal on `storage.py` line 93
(avatar file absent). -/
def detailNoFileS : Str := "头像文件不存在".data

/-- Detail text of the Chinese literal `"用户不存在"` (`main.py`, user missing). -/
def detailNoUserS : Str := "用户不存在".data

/-- Detail text of the Chinese literal `"用户暂无头像"` (`main.py` line 137,
delete requested with no avatar set). -/
def detailNoAvatarS : Str := "用户暂无头像".data

/-- Detail text of the Chinese literal `"读取文件失败"` (`main.py` line 71,
reading the multipart body raised). -/
def detailReadFailS : Str := "读取文件失败".data

/-- Detail text of the Chinese literal `"更新用户信息失败"` (`main.py` line 93,
database persistence raised). -/
def detailPersistFailS : Str := "更新用户信息失败".data

/-- Message text of the Chinese literal `"头像上传成功"` (`main.py` line 97). -/
def msgUploadOkS : Str := "头像上传成功".data

/-- Message text of the Chinese literal `"头像删除成功"` (`main.py` line 147). -/
def msgDeleteOkS : Str := "头像删除成功".data

/-- The MIME constant `"image/jpeg"`. -/
def mimeJpegS : Str := "image/jpeg".data

/-- The MIME constant `"image/png"`. -/
def mimePngS : Str := "image/png".data

/-- The MIME constant `"image/gif"`. -/
def mimeGifS : Str := "image/gif".data

/-- The MIME constant `"image/jpg"`. -/
def mimeJpgS : Str := "image/jpg".data

/-- The extension constant `"jpg"`. -/
def jpgS : Str := "jpg".data

/-- The extension constant `"png"`. -/
def pngS : Str := "png".data

/-- The extension constant `"gif"`. -/
def gifS : Str := "gif".data

/-- `self.allowed_mime_types` (`storage.py` lines 15-20): the allow-list of
image MIME types (`jpg` and `jpeg` both present, mapped to one extension). -/
def allowed_mime_types : List Str :=
  [mimeJpegS, mimePngS, mimeGifS, mimeJpgS]

/-- `self.mime_to_ext` (`storage.py` lines 23-28) as a lookup:
`mime_to_ext m = some e` iff the dict maps `m` to `e`. -/
def mime_to_ext (m : Str) : Option Str :=
  if m = mimeJpegS then some jpgS
  else if m = mimePngS then some pngS
  else if m = mimeGifS then some gifS
  else if m = mimeJpgS then some jpgS
  else none

/-- `LocalAvatarStorage._validate_file` (`storage.py` lines 30-50): reject
buffers over `MAX_AVATAR_SIZE` (status 400), reject buffers whose sniffing
raises (status 400), reject sniffed types outside the allow-list (status 400);
otherwise return the sniffed MIME type. -/
def validate_file (st : Settings) (sniff : Bytes → Option Str)
    (file_content : Bytes) : Except HTTPException Str :=
  if file_content.length > st.MAX_AVATAR_SIZE then
    .error ⟨400, detailTooLargeS⟩
  else
    match sniff file_content with
    | none => .error ⟨400, detailSniffS⟩
    | some mime_type =>
      if mime_type ∈ allowed_mime_types then .ok mime_type
      else .error ⟨400, detailUnsupportedS⟩

/-- `os.path.join(self.upload_dir, str(user_id))` (`storage.py` line 62). -/
def userDir (st : Settings) (uid : Nat) : Str :=
  posixJoin st.UPLOAD_DIR (natStr uid)

/-- `f"{uuid.uuid4()}.{file_ext}"` (`storage.py` line 66) with the UUID text
as a parameter. -/
def fileName (uuidStr ext : Str) : Str := uuidStr ++ '.' :: ext

/-- `os.path.join(user_dir, file_name)` (`storage.py` line 67): the absolute
path the upload writes. -/
def uploadFilePath (st : Settings) (uid : Nat) (uuidStr ext : Str) : Str :=
  posixJoin (userDir st uid) (fileName uuidStr ext)

/-- `os.path.join("avatars", str(user_id), file_name).replace("\\", "/")`
(`storage.py` lines 79-80), generalized over the host separator used by
`os.path.join`. -/
def uploadRelPathWith (sep : Char) (uid : Nat) (uuidStr ext : Str) : Str :=
  pyReplace (osJoin sep (osJoin sep avatarsS (natStr uid)) (fileName uuidStr ext))
    backslashS slashS

/-- The relative path returned by a successful upload on the modelled host. -/
def uploadRelPath (uid : Nat) (uuidStr ext : Str) : Str :=
  uploadRelPathWith '/' uid uuidStr ext

/-- `LocalAvatarStorage.upload_avatar` (`storage.py` lines 52-80): validate,
map the sniffed MIME to an extension (`dict.get` with default `"jpg"`), create
the per-user directory (`os.makedirs(..., exist_ok=True)`), write the file
(raising status 500 if the write fails), and return the normalized relative
path.  The result is the new file-system state, the returned path or raised
exception, and the disk mutations in order. -/
def upload_avatar (st : Settings) (sniff : Bytes → Option Str) (fs : FS)
    (user_id : Nat) (uuidStr : Str) (file_content : Bytes) :
    FS × Except HTTPException Str × List Event :=
  match validate_file st sniff file_content with
  | .error e => (fs, .error e, [])
  | .ok mime_type =>
    let file_ext := (mime_to_ext mime_type).getD jpgS
    let file_path := uploadFilePath st user_id uuidStr file_ext
    if file_path ∈ fs.writeFails then
      ({ fs with dirs := userDir st user_id :: fs.dirs },
       .error ⟨500, detailWriteFailS⟩,
       [Event.mkdir (userDir st user_id)])
    else
      ({ fs with dirs := userDir st user_id :: fs.dirs,
                 files := file_path :: fs.files },
       .ok (uploadRelPath user_id uuidStr file_ext),
       [Event.mkdir (userDir st user_id), Event.write file_path])

/-- `os.path.join(settings.UPLOAD_DIR.replace("avatars", ""), relative_path)`
(`storage.py` lines 89-90): the absolute location `delete_avatar` operates
on. -/
def deleteAbsPath (st : Settings) (relative_path : Str) : Str :=
  posixJoin (pyReplace st.UPLOAD_DIR avatarsS emptyS) relative_path

/-- `LocalAvatarStorage.delete_avatar` (`storage.py` lines 82-93):
`os.path.exists` then `os.remove`; a missing path raises status 404, a
failing removal (including a path that exists as a directory) raises status
500, otherwise the file is removed and nothing is returned. -/
def delete_avatar (st : Settings) (fs : FS) (relative_path : Str) :
    FS × Except HTTPException Unit × List Event :=
  let abs_path := deleteAbsPath st relative_path
  if abs_path ∈ fs.files then
    if abs_path ∈ fs.removeFails then
      (fs, .error ⟨500, detailDeleteFailS⟩, [])
    else
      ({ fs with files := fs.files.erase abs_path }, .ok (),
       [Event.remove abs_path])
  else if abs_path ∈ fs.dirs then
    (fs, .error ⟨500, detailDeleteFailS⟩, [])
  else
    (fs, .error ⟨404, detailNoFileS⟩, [])

/-- Text of the static-mount prefix `"/static/"` (`storage.py` line 97). -/
def staticPrefixS : Str := "/static/".data

/-- `LocalAvatarStorage.get_avatar_url` (`storage.py` lines 95-97):
`f"{settings.BASE_URL}/static/{relative_path}"`. -/
def get_avatar_url (st : Settings) (relative_path : Str) : Str :=
  st.BASE_URL ++ staticPrefixS ++ relative_path

/-- The JSON body returned by a successful `POST /users/{id}/avatar`
(`main.py` lines 96-101). -/
structure UploadResponse where
  message : Str
  user_id : Nat
  avatar_path : Str
  avatar_url : Str
deriving DecidableEq

/-- The JSON body returned by a successful `DELETE /users/{id}/avatar`
(`main.py` line 147). -/
structure DeleteResponse where
  message : Str
  user_id : Nat
deriving DecidableEq

/-- Steps 5-6 of `upload_user_avatar` (`main.py` lines 85-101): persist the
new path; if the commit raises, delete the just-uploaded file and surface
status 500 (if that compensating delete itself raises, its exception
propagates instead, as a raise inside the `except` block does in Python). -/
def finishUpload (st : Settings) (commitFails : Bool) (db : List User)
    (fs : FS) (ev : List Event) (uid : Nat) (newPath : Str) :
    List User × FS × List Event × Except HTTPException UploadResponse :=
  if commitFails then
    match delete_avatar st fs newPath with
    | (fs3, .error e, ev3) => (db, fs3, ev ++ ev3, .error e)
    | (fs3, .ok _, ev3) =>
      (db, fs3, ev ++ ev3, .error ⟨500, detailPersistFailS⟩)
  else
    (dbSet db uid (some newPath), fs, ev ++ [Event.commit],
     .ok ⟨msgUploadOkS, uid, newPath, get_avatar_url st newPath⟩)

/-- `POST /users/{user_id}/avatar` (`main.py` lines 57-101): check the user
exists (404), read the multipart bytes (500 on a read error), upload to disk,
delete the old avatar if the recorded path is truthy, then persist the new
path (with delete-on-commit-failure compensation).  Returns the resulting
database, file system, ordered disk mutations, and response or exception. -/
def upload_user_avatar (st : Settings) (sniff : Bytes → Option Str)
    (readFails commitFails : Bool) (db : List User) (fs : FS)
    (user_id : Nat) (uuidStr : Str) (content : Bytes) :
    List User × FS × List Event × Except HTTPException UploadResponse :=
  match dbGet db user_id with
  | none => (db, fs, [], .error ⟨404, detailNoUserS⟩)
  | some user =>
    if readFails then (db, fs, [], .error ⟨500, detailReadFailS⟩)
    else
      match upload_avatar st sniff fs user_id uuidStr content with
      | (fs1, .error e, ev1) => (db, fs1, ev1, .error e)
      | (fs1, .ok newPath, ev1) =>
        if optTruthy user.avatar_path then
          match delete_avatar st fs1 (user.avatar_path.getD []) with
          | (fs2, .error e, ev2) => (db, fs2, ev1 ++ ev2, .error e)
          | (fs2, .ok _, ev2) =>
            finishUpload st commitFails db fs2 (ev1 ++ ev2) user_id newPath
        else
          finishUpload st commitFails db fs1 ev1 user_id newPath

/-- `DELETE /users/{user_id}/avatar` (`main.py` lines 129-148): 404 when the
user is missing, 400 when the recorded avatar path is falsy, otherwise delete
the file (propagating its 404/500) and clear the path on the row (an
unhandled commit error surfaces as a bare status-500 server error). -/
def delete_user_avatar (st : Settings) (commitFails : Bool) (db : List User)
    (fs : FS) (user_id : Nat) :
    List User × FS × List Event × Except HTTPException DeleteResponse :=
  match dbGet db user_id with
  | none => (db, fs, [], .error ⟨404, detailNoUserS⟩)
  | some user =>
    if optTruthy user.avatar_path then
      match delete_avatar st fs (user.avatar_path.getD []) with
      | (fs1, .error e, ev1) => (db, fs1, ev1, .error e)
      | (fs1, .ok _, ev1) =>
        if commitFails then
          (db, fs1, ev1, .error ⟨500, "Internal Server Error".data⟩)
        else
          (dbSet db user_id none, fs1, ev1 ++ [Event.commit],
           .ok ⟨msgDeleteOkS, user_id⟩)
    else
      (db, fs, [], .error ⟨400, detailNoAvatarS⟩)

/-! ### String-level lemmas about the embedded Python primitives -/

/-- Skipping `k` characters with `replaceAux` is scanning the `k`-dropped
suffix. -/
theorem replaceAux_skip (pat rep : Str) :
    ∀ (l : Str) (k : Nat), replaceAux pat rep k l = replaceAux pat rep 0 (l.drop k) := by
  intro l
  induction l with
  | nil => intro k; simp [replaceAux]
  | cons c rest ih =>
    intro k
    cases k with
    | zero => rfl
    | succ j => simpa [replaceAux] using ih j

/-- One-step unfolding of the `str.replace` scanner at scan position. -/
theorem replaceAux_zero_cons (pat rep : Str) (c : Char) (rest : Str) :
    replaceAux pat rep 0 (c :: rest) =
      if pat.isPrefixOf (c :: rest) then
        rep ++ replaceAux pat rep 0 (rest.drop (pat.length - 1))
      else c :: replaceAux pat rep 0 rest := by
  rw [replaceAux, replaceAux_skip]

/-- Character-level backslash normalization (`storage.py` line 80). -/
def slashify (c : Char) : Char := if c = '\\' then '/' else c

/-- Replacing the one-character pattern `"\\"` by `"/"` is a character map. -/
theorem pyReplace_backslash (l : Str) :
    pyReplace l backslashS slashS = l.map slashify := by
  induction l with
  | nil => rfl
  | cons c rest ih =>
    show replaceAux backslashS slashS 0 (c :: rest) = _
    rw [replaceAux_zero_cons]
    by_cases hc : c = '\\'
    · subst hc
      have hpre : backslashS.isPrefixOf ('\\' :: rest) = true := by
        simp [backslashS, List.isPrefixOf]
      rw [if_pos hpre]
      simpa [backslashS, slashS, slashify] using ih
    · have hpre : ¬ backslashS.isPrefixOf (c :: rest) = true := by
        simp [backslashS, List.isPrefixOf]
        exact fun h => (hc h.symm).elim
      rw [if_neg hpre]
      simp only [List.map_cons, slashify, if_neg hc, List.cons.injEq, true_and]
      exact ih

/-- `slashify` fixes any string without a backslash. -/
theorem map_slashify_of_not_mem (l : Str) (h : '\\' ∉ l) : l.map slashify = l := by
  induction l with
  | nil => rfl
  | cons c rest ih =>
    have hc : c ≠ '\\' := fun hc => h (hc ▸ List.mem_cons_self c rest)
    have hr : '\\' ∉ rest := fun hr => h (List.mem_cons_of_mem c hr)
    simp [slashify, hc, ih hr]

/-- A pattern that avoids the character `sep` and Boolean-prefix-matches
`l ++ sep :: r` is a prefix of `l` alone. -/
theorem isPrefixOf_append_sep {sep : Char} :
    ∀ (pat l r : Str), sep ∉ pat → pat.isPrefixOf (l ++ sep :: r) = true → pat <+: l := by
  intro pat
  induction pat with
  | nil => intro l r _ _; exact List.nil_prefix
  | cons p ps ih =>
    intro l r hsep h
    cases l with
    | nil =>
      simp only [List.nil_append, List.isPrefixOf, Bool.and_eq_true, beq_iff_eq] at h
      exact absurd (h.1 ▸ List.mem_cons_self p ps) hsep
    | cons a l' =>
      simp only [List.cons_append, List.isPrefixOf, Bool.and_eq_true, beq_iff_eq] at h
      obtain ⟨t, ht⟩ := ih l' r (fun hm => hsep (List.mem_cons_of_mem p hm)) h.2
      exact ⟨t, by simp [h.1, ht]⟩

/-- Python `dir.replace(pat, "")` on `root + "/" + pat` strips the trailing
pattern and nothing else, provided `pat` contains no `'/'` and does not occur
inside `root` (`storage.py` line 90 with `pat = "avatars"`). -/
theorem pyReplace_strip (pat : Str) (hne : pat ≠ []) (hs : '/' ∉ pat) :
    ∀ root : Str, ¬ pat <:+: root →
      pyReplace (root ++ '/' :: pat) pat emptyS = root ++ ['/'] := by
  intro root
  induction root with
  | nil =>
    intro _
    obtain ⟨p, ps, hp⟩ := List.exists_cons_of_ne_nil hne
    subst hp
    have hphead : p ≠ '/' := fun h => hs (by rw [h]; exact List.mem_cons_self _ _)
    show replaceAux (p :: ps) emptyS 0 ('/' :: (p :: ps)) = ['/']
    rw [replaceAux_zero_cons]
    have hpre : ¬ (p :: ps).isPrefixOf ('/' :: (p :: ps)) = true := by
      simp only [List.isPrefixOf, Bool.and_eq_true, beq_iff_eq]
      exact fun h => hphead h.1
    rw [if_neg hpre]
    have hself : replaceAux (p :: ps) emptyS 0 (p :: ps) = [] := by
      rw [replaceAux_zero_cons]
      have hpre2 : (p :: ps).isPrefixOf (p :: ps) = true :=
        List.isPrefixOf_iff_prefix.mpr (List.prefix_refl _)
      rw [if_pos hpre2]
      simp [emptyS, List.drop_length, replaceAux]
    rw [hself]
  | cons c root' ih =>
    intro hinf
    show replaceAux pat emptyS 0 (c :: (root' ++ '/' :: pat)) = c :: root' ++ ['/']
    rw [replaceAux_zero_cons]
    have hpre : ¬ pat.isPrefixOf (c :: (root' ++ '/' :: pat)) = true := by
      intro h
      have : pat <+: c :: root' :=
        isPrefixOf_append_sep pat (c :: root') pat hs (by simpa using h)
      exact hinf this.isInfix
    rw [if_neg hpre]
    have hroot' : ¬ pat <:+: root' := fun h => hinf (List.infix_cons h)
    have hrec := ih hroot'
    rw [pyReplace] at hrec
    rw [hrec]
    simp

/-- A decimal digit character is a digit. -/
theorem digitChar_isDigit (k : Nat) (h : k < 10) : (digitChar k).isDigit = true := by
  interval_cases k <;> decide

/-- Every character the digit loop can add is a decimal digit. -/
theorem natStrGo_digits :
    ∀ (fuel n : Nat) (acc : Str), (∀ c ∈ acc, c.isDigit = true) →
      ∀ c ∈ natStrGo fuel n acc, c.isDigit = true := by
  intro fuel
  induction fuel with
  | zero => intro n acc hacc c hc; exact hacc c hc
  | succ f ih =>
    intro n acc hacc c hc
    rw [natStrGo] at hc
    by_cases hn : n < 10
    · rw [if_pos hn] at hc
      rcases List.mem_cons.mp hc with h | h
      · exact h ▸ digitChar_isDigit _ (Nat.mod_lt _ (by omega))
      · exact hacc c h
    · rw [if_neg hn] at hc
      refine ih (n / 10) _ ?_ c hc
      intro d hd
      rcases List.mem_cons.mp hd with h | h
      · exact h ▸ digitChar_isDigit _ (Nat.mod_lt _ (by omega))
      · exact hacc d h

/-- The digit loop never erases its accumulator. -/
theorem natStrGo_ne_nil :
    ∀ (fuel n : Nat) (acc : Str), acc ≠ [] → natStrGo fuel n acc ≠ [] := by
  intro fuel
  induction fuel with
  | zero => intro n acc hacc; exact hacc
  | succ f ih =>
    intro n acc hacc
    rw [natStrGo]
    by_cases hn : n < 10
    · rw [if_pos hn]; exact List.cons_ne_nil _ _
    · rw [if_neg hn]; exact ih _ _ (List.cons_ne_nil _ _)

/-- Python `str(n)` is never the empty string. -/
theorem natStr_ne_nil (n : Nat) : natStr n ≠ [] := by
  rw [natStr, natStrGo]
  by_cases hn : n < 10
  · rw [if_pos hn]; exact List.cons_ne_nil _ _
  · rw [if_neg hn]; exact natStrGo_ne_nil _ _ _ (List.cons_ne_nil _ _)

/-- Python `str(n)` consists of decimal digits only. -/
theorem natStr_digits (n : Nat) : ∀ c ∈ natStr n, c.isDigit = true :=
  natStrGo_digits _ _ _ (by intro c hc; cases hc)

/-- A non-digit character does not occur in `str(n)`. -/
theorem not_mem_natStr {c : Char} (hc : c.isDigit = false) (n : Nat) :
    c ∉ natStr n := by
  intro h
  have := natStr_digits n c h
  rw [hc] at this
  cases this

/-- `str(n)` does not start with a non-digit character. -/
theorem natStr_head_ne {c : Char} (hc : c.isDigit = false) (n : Nat) :
    (natStr n).head? ≠ some c := by
  intro h
  exact not_mem_natStr hc n (List.mem_of_mem_head? (Option.mem_def.mpr h))

/-- `str(n)` does not end with a non-digit character. -/
theorem natStr_getLast_ne {c : Char} (hc : c.isDigit = false) (n : Nat) :
    (natStr n).getLast? ≠ some c := by
  intro h
  exact not_mem_natStr hc n (List.mem_of_mem_getLast? (Option.mem_def.mpr h))

/-- Last element of an append with a nonempty right part. -/
theorem getLast?_append_ne (l l' : Str) (h : l' ≠ []) :
    (l ++ l').getLast? = l'.getLast? := by
  rw [List.getLast?_append]
  obtain ⟨x, hx⟩ := Option.isSome_iff_exists.mp (List.getLast?_isSome.mpr h)
  rw [hx]
  rfl

/-- `os.path.join` in the generic position: separator inserted between the
parts. -/
theorem osJoin_general (sep : Char) (a b : Str) (hb : b.head? ≠ some sep)
    (ha : a ≠ []) (ha2 : a.getLast? ≠ some sep) :
    osJoin sep a b = a ++ sep :: b := by
  rw [osJoin, if_neg hb, if_neg ha, if_neg ha2]

/-- `os.path.join` after a trailing separator: plain concatenation. -/
theorem osJoin_trailing (sep : Char) (a b : Str) (hb : b.head? ≠ some sep)
    (ha : a ≠ []) (ha2 : a.getLast? = some sep) :
    osJoin sep a b = a ++ b := by
  rw [osJoin, if_neg hb, if_neg ha, if_pos ha2]

/-! ### Path shapes produced by the storage module -/

/-- Shape of the per-user directory when the configured upload directory is
nonempty without a trailing separator. -/
theorem userDir_eq (st : Settings) (uid : Nat) (h1 : st.UPLOAD_DIR ≠ [])
    (h2 : st.UPLOAD_DIR.getLast? ≠ some '/') :
    userDir st uid = st.UPLOAD_DIR ++ '/' :: natStr uid :=
  osJoin_general '/' _ _ (natStr_head_ne (by decide) uid) h1 h2

/-- The generated file name starts with the UUID text or a dot, never with a
separator the UUID text avoids. -/
theorem fileName_head_ne (uuidStr ext : Str) {sep : Char} (hdot : sep ≠ '.')
    (hu : sep ∉ uuidStr) : (fileName uuidStr ext).head? ≠ some sep := by
  cases uuidStr with
  | nil =>
    intro h
    exact hdot (Option.some.inj h).symm
  | cons u us =>
    intro h
    exact hu ((Option.some.inj h) ▸ List.mem_cons_self u us)

/-- Shape of the absolute path the upload writes
(`os.path.join(upload_dir, str(user_id))` then `os.path.join(·, file_name)`). -/
theorem uploadFilePath_eq (st : Settings) (uid : Nat) (uuidStr ext : Str)
    (h1 : st.UPLOAD_DIR ≠ []) (h2 : st.UPLOAD_DIR.getLast? ≠ some '/')
    (hu : '/' ∉ uuidStr) :
    uploadFilePath st uid uuidStr ext =
      st.UPLOAD_DIR ++ '/' :: (natStr uid ++ '/' :: fileName uuidStr ext) := by
  rw [uploadFilePath, posixJoin, userDir_eq st uid h1 h2]
  rw [osJoin_general '/' _ _ (fileName_head_ne uuidStr ext (by decide) hu)]
  · simp
  · simp
  · rw [show st.UPLOAD_DIR ++ '/' :: natStr uid = st.UPLOAD_DIR ++ ['/'] ++ natStr uid
        by simp]
    rw [getLast?_append_ne _ _ (natStr_ne_nil uid)]
    exact natStr_getLast_ne (by decide) uid

/-- Shape of the joined (pre-normalization) relative path, for any host
separator that is neither a digit nor a dot nor a character of the UUID
text. -/
theorem osJoin_relPath_eq (sep : Char) (uid : Nat) (uuidStr ext : Str)
    (hd : sep.isDigit = false) (hdot : sep ≠ '.') (hu : sep ∉ uuidStr)
    (hav : avatarsS.getLast? ≠ some sep) :
    osJoin sep (osJoin sep avatarsS (natStr uid)) (fileName uuidStr ext) =
      avatarsS ++ sep :: (natStr uid ++ sep :: fileName uuidStr ext) := by
  rw [osJoin_general sep avatarsS (natStr uid) (natStr_head_ne hd uid)
        (by rw [avatarsS]; decide) hav]
  rw [osJoin_general sep _ _ (fileName_head_ne uuidStr ext hdot hu)]
  · simp
  · simp [avatarsS]
  · rw [show avatarsS ++ sep :: natStr uid = avatarsS ++ [sep] ++ natStr uid by simp]
    rw [getLast?_append_ne _ _ (natStr_ne_nil uid)]
    exact natStr_getLast_ne hd uid

/-- On the POSIX host the relative path returned by the upload is literally
`avatars/<user_id>/<uuid>.<ext>`. -/
theorem uploadRelPath_eq (uid : Nat) (uuidStr ext : Str)
    (hu : '/' ∉ uuidStr) (hub : '\\' ∉ uuidStr) (heb : '\\' ∉ ext) :
    uploadRelPath uid uuidStr ext =
      avatarsS ++ '/' :: (natStr uid ++ '/' :: (uuidStr ++ '.' :: ext)) := by
  rw [uploadRelPath, uploadRelPathWith,
    osJoin_relPath_eq '/' uid uuidStr ext (by decide) (by decide) hu (by decide)]
  rw [pyReplace_backslash, map_slashify_of_not_mem, fileName]
  intro h
  rcases List.mem_append.mp h with h | h
  · revert h; rw [avatarsS]; decide
  · rcases List.mem_cons.mp h with h | h
    · cases h
    · rcases List.mem_append.mp h with h | h
      · exact not_mem_natStr (by decide) uid h
      · rcases List.mem_cons.mp h with h | h
        · cases h
        · rcases List.mem_append.mp h with h | h
          · exact hub h
          · rcases List.mem_cons.mp h with h | h
            · cases h
            · exact heb h

/-- The Windows-separator variant of the relative-path computation produces
the same normalized path as the POSIX one: the trailing
`.replace("\\", "/")` of `storage.py` line 80 erases the host dependence. -/
theorem uploadRelPathWith_backslash (uid : Nat) (uuidStr ext : Str)
    (hu : '/' ∉ uuidStr) (hub : '\\' ∉ uuidStr) (heb : '\\' ∉ ext) :
    uploadRelPathWith '\\' uid uuidStr ext = uploadRelPath uid uuidStr ext := by
  rw [uploadRelPathWith,
    osJoin_relPath_eq '\\' uid uuidStr ext (by decide) (by decide) hub (by decide)]
  rw [pyReplace_backslash, uploadRelPath_eq uid uuidStr ext hu hub heb]
  simp only [List.map_append, List.map_cons]
  rw [map_slashify_of_not_mem _ (by rw [avatarsS]; decide),
    map_slashify_of_not_mem _ (not_mem_natStr (by decide) uid)]
  have hfn : (fileName uuidStr ext).map slashify = uuidStr ++ '.' :: ext := by
    rw [fileName]
    simp only [List.map_append, List.map_cons]
    rw [map_slashify_of_not_mem _ hub, map_slashify_of_not_mem _ heb]
    rfl
  rw [hfn]
  rfl

/-- Under the standard configuration `UPLOAD_DIR = <root>/avatars` (with
`"avatars"` not occurring in `<root>`), `delete_avatar` resolves an
`avatars/...`-shaped relative path to `<root>/avatars/...`, i.e. back under
the configured upload directory. -/
theorem deleteAbsPath_std (st : Settings) (root rest : Str)
    (hcfg : st.UPLOAD_DIR = root ++ slashAvatarsS)
    (hinf : ¬ avatarsS <:+: root) :
    deleteAbsPath st (avatarsS ++ '/' :: rest) =
      st.UPLOAD_DIR ++ '/' :: rest := by
  rw [deleteAbsPath, hcfg]
  have hstrip : pyReplace (root ++ slashAvatarsS) avatarsS emptyS = root ++ ['/'] := by
    have := pyReplace_strip avatarsS (by rw [avatarsS]; decide) (by rw [avatarsS]; decide)
      root hinf
    simpa [slashAvatarsS, avatarsS] using this
  rw [hstrip, posixJoin]
  rw [osJoin_trailing '/' _ _ ?_ ?_ ?_]
  · simp [slashAvatarsS, avatarsS]
  · rw [avatarsS]
    intro h
    simp only [List.cons_append, List.head?_cons] at h
    exact absurd (Option.some.inj h) (by decide)
  · simp
  · rw [getLast?_append_ne _ _ (by decide)]
    rfl

/-- Round trip of the path computations: under the standard configuration the
absolute path `delete_avatar` resolves from the relative path a successful
upload returned equals the absolute path that upload wrote. -/
theorem deleteAbsPath_roundTrip (st : Settings) (root : Str) (uid : Nat)
    (uuidStr ext : Str) (hcfg : st.UPLOAD_DIR = root ++ slashAvatarsS)
    (hinf : ¬ avatarsS <:+: root) (hu : '/' ∉ uuidStr) (hub : '\\' ∉ uuidStr)
    (heb : '\\' ∉ ext) :
    deleteAbsPath st (uploadRelPath uid uuidStr ext) =
      uploadFilePath st uid uuidStr ext := by
  rw [uploadRelPath_eq uid uuidStr ext hu hub heb]
  rw [deleteAbsPath_std st root _ hcfg hinf]
  rw [uploadFilePath_eq st uid uuidStr ext ?_ ?_ hu]
  · rfl
  · rw [hcfg]
    simp [slashAvatarsS]
  · rw [hcfg, getLast?_append_ne _ _ (by rw [slashAvatarsS]; decide)]
    rw [slashAvatarsS]
    decide

/-- Extensions coming out of `mime_to_ext` contain neither separator
character. -/
theorem mime_to_ext_chars (m ext : Str) (h : mime_to_ext m = some ext) :
    '/' ∉ ext ∧ '\\' ∉ ext := by
  rw [mime_to_ext] at h
  split_ifs at h <;> cases h <;> exact ⟨by decide, by decide⟩

/-! ### Branch characterizations of the storage operations -/

/-- Validation succeeds exactly on small-enough buffers whose sniffed type is
allowed. -/
theorem validate_file_ok (st : Settings) (sniff : Bytes → Option Str)
    (content : Bytes) (m : Str) (hlen : content.length ≤ st.MAX_AVATAR_SIZE)
    (hsniff : sniff content = some m) (hm : m ∈ allowed_mime_types) :
    validate_file st sniff content = .ok m := by
  rw [validate_file, if_neg (by omega), hsniff]
  simp only [if_pos hm]

/-- Successful upload: validation passes, the write does not fail; the
per-user directory is recorded, the file is written, and the normalized
relative path is returned. -/
theorem upload_avatar_ok (st : Settings) (sniff : Bytes → Option Str) (fs : FS)
    (uid : Nat) (uuidStr : Str) (content : Bytes) (m ext : Str)
    (hlen : content.length ≤ st.MAX_AVATAR_SIZE)
    (hsniff : sniff content = some m) (hm : m ∈ allowed_mime_types)
    (hext : mime_to_ext m = some ext)
    (hw : uploadFilePath st uid uuidStr ext ∉ fs.writeFails) :
    upload_avatar st sniff fs uid uuidStr content =
      (⟨uploadFilePath st uid uuidStr ext :: fs.files,
        userDir st uid :: fs.dirs, fs.removeFails, fs.writeFails⟩,
       .ok (uploadRelPath uid uuidStr ext),
       [Event.mkdir (userDir st uid),
        Event.write (uploadFilePath st uid uuidStr ext)]) := by
  rw [upload_avatar, validate_file_ok st sniff content m hlen hsniff hm]
  simp only [hext, Option.getD_some]
  rw [if_neg hw]

/-- Failed validation leaves the upload with the validation error, the file
system untouched, and no disk mutation. -/
theorem upload_avatar_invalid (st : Settings) (sniff : Bytes → Option Str)
    (fs : FS) (uid : Nat) (uuidStr : Str) (content : Bytes) (e : HTTPException)
    (hval : validate_file st sniff content = .error e) :
    upload_avatar st sniff fs uid uuidStr content = (fs, .error e, []) := by
  rw [upload_avatar, hval]

/-- Deleting a path that exists neither as file nor as directory raises 404. -/
theorem delete_avatar_notFound (st : Settings) (fs : FS) (relp : Str)
    (h1 : deleteAbsPath st relp ∉ fs.files) (h2 : deleteAbsPath st relp ∉ fs.dirs) :
    delete_avatar st fs relp = (fs, .error ⟨404, detailNoFileS⟩, []) := by
  rw [delete_avatar]
  simp only [if_neg h1, if_neg h2]

/-- Deleting an existing file whose removal errors raises 500 and removes
nothing. -/
theorem delete_avatar_removeFail (st : Settings) (fs : FS) (relp : Str)
    (h1 : deleteAbsPath st relp ∈ fs.files)
    (h2 : deleteAbsPath st relp ∈ fs.removeFails) :
    delete_avatar st fs relp = (fs, .error ⟨500, detailDeleteFailS⟩, []) := by
  rw [delete_avatar]
  simp only [if_pos h1, if_pos h2]

/-- Deleting an existing, removable file removes exactly it and returns
nothing. -/
theorem delete_avatar_ok (st : Settings) (fs : FS) (relp : Str)
    (h1 : deleteAbsPath st relp ∈ fs.files)
    (h2 : deleteAbsPath st relp ∉ fs.removeFails) :
    delete_avatar st fs relp =
      ({ fs with files := fs.files.erase (deleteAbsPath st relp) }, .ok (),
       [Event.remove (deleteAbsPath st relp)]) := by
  rw [delete_avatar]
  simp only [if_pos h1, if_neg h2]

/-- Status of an endpoint / storage result, `none` on success. -/
def errStatus {α : Type} : Except HTTPException α → Option Nat
  | .error e => some e.status_code
  | .ok _ => none

/-! ### Concrete instances used by the witnesses -/

/-- A standard configuration: `UPLOAD_DIR = uploads/avatars`, 1024-byte
limit. -/
def stW : Settings := ⟨"uploads/avatars".data, 1024, "http://127.0.0.1:8000".data⟩

/-- The root part of `stW.UPLOAD_DIR`. -/
def rootW : Str := "uploads".data

/-- A sniffer that recognizes every buffer as a PNG. -/
def sniffPng : Bytes → Option Str := fun _ => some mimePngS

/-- The MIME string `"text/plain"`. -/
def mimeTextS : Str := "text/plain".data

/-- A sniffer that recognizes every buffer as plain text. -/
def sniffText : Bytes → Option Str := fun _ => some mimeTextS

/-- The empty disk. -/
def fsW : FS := ⟨[], [], [], []⟩

/-- A tiny valid buffer. -/
def contentW : Bytes := [1, 2, 3]

/-- A buffer one byte over `stW`'s limit. -/
def bigContentW : Bytes := List.replicate 1025 0

/-- A sample UUID text. -/
def uuidW : Str := "123e4567-e89b-42d3-a456-426614174000".data

/-- A previously recorded avatar relative path. -/
def oldPathW : Str := "avatars/7/old.png".data

/-- The absolute location of `oldPathW` under `stW`. -/
def oldAbsW : Str := "uploads/avatars/7/old.png".data

/-- A user with no avatar set. -/
def userNoAvatarW : User := ⟨1, "alice".data, none⟩

/-- A user whose recorded avatar is `oldPathW`. -/
def userOldW : User := ⟨7, "bob".data, some oldPathW⟩

/-! ### The claims -/

/-- Oversized buffers make `upload_avatar` fail with the 400 size-limit
error, leaving the file system untouched. -/
theorem upload_avatar_too_large (st : Settings) (sniff : Bytes → Option Str)
    (fs : FS) (uid : Nat) (uuidStr : Str) (content : Bytes)
    (h : content.length > st.MAX_AVATAR_SIZE) :
    upload_avatar st sniff fs uid uuidStr content =
      (fs, .error ⟨400, detailTooLargeS⟩, []) := by
  apply upload_avatar_invalid
  rw [validate_file, if_pos h]

/-- Claim C2: for every byte buffer strictly longer than the configured
maximum size, `upload_avatar` fails with the size-limit error (the
client-error status 400, `storage.py` lines 32-36) and leaves the file
system untouched: no file or directory is created. -/
theorem claim_C2_payload_too_large (st : Settings) (sniff : Bytes → Option Str)
    (fs : FS) (uid : Nat) (uuidStr : Str) (content : Bytes)
    (h : content.length > st.MAX_AVATAR_SIZE) :
    upload_avatar st sniff fs uid uuidStr content =
      (fs, .error ⟨400, detailTooLargeS⟩, []) :=
  upload_avatar_too_large st sniff fs uid uuidStr content h

/-- Witness for C2 at a concrete oversized buffer. -/
theorem claim_C2_witness :
    upload_avatar stW sniffPng fsW 7 uuidW bigContentW =
      (fsW, .error ⟨400, detailTooLargeS⟩, []) :=
  claim_C2_payload_too_large stW sniffPng fsW 7 uuidW bigContentW
    (by rw [bigContentW, List.length_replicate]; exact Nat.lt_of_sub_eq_succ rfl)

/-- Claim C3: for every buffer whose sniffed media type is outside the
allow-list, `upload_avatar` fails with a 400 client error, creates no file or
directory, and performs no disk mutation; when the buffer also passes the
(earlier) size check, the error is precisely the unsupported-media-type one.
The decision depends only on the sniffed type: the model of
`LocalAvatarStorage.upload_avatar` has no client-declared content-type
input at all. -/
theorem claim_C3_unsupported_media_type (st : Settings)
    (sniff : Bytes → Option Str) (fs : FS) (uid : Nat) (uuidStr : Str)
    (content : Bytes) (m : Str) (hsniff : sniff content = some m)
    (hm : m ∉ allowed_mime_types) :
    errStatus (upload_avatar st sniff fs uid uuidStr content).2.1 = some 400 ∧
    (upload_avatar st sniff fs uid uuidStr content).1 = fs ∧
    (upload_avatar st sniff fs uid uuidStr content).2.2 = [] ∧
    (content.length ≤ st.MAX_AVATAR_SIZE →
      upload_avatar st sniff fs uid uuidStr content =
        (fs, .error ⟨400, detailUnsupportedS⟩, [])) := by
  have hbad : ∀ hlen : ¬ content.length > st.MAX_AVATAR_SIZE,
      upload_avatar st sniff fs uid uuidStr content =
        (fs, .error ⟨400, detailUnsupportedS⟩, []) := by
    intro hlen
    apply upload_avatar_invalid
    rw [validate_file, if_neg hlen, hsniff]
    simp only [if_neg hm]
  by_cases hlen : content.length > st.MAX_AVATAR_SIZE
  · have h := upload_avatar_too_large st sniff fs uid uuidStr content hlen
    rw [h]
    exact ⟨rfl, rfl, rfl, fun hle => absurd hlen (by omega)⟩
  · rw [hbad hlen]
    exact ⟨rfl, rfl, rfl, fun _ => rfl⟩

/-- Witness for C3 at a concrete text buffer (status 400, unsupported type,
disk untouched). -/
theorem claim_C3_witness :
    errStatus (upload_avatar stW sniffText fsW 7 uuidW contentW).2.1 = some 400 ∧
    upload_avatar stW sniffText fsW 7 uuidW contentW =
      (fsW, .error ⟨400, detailUnsupportedS⟩, []) := by
  have h := claim_C3_unsupported_media_type stW sniffText fsW 7 uuidW contentW
    mimeTextS rfl (by decide)
  exact ⟨h.1, h.2.2.2 (by decide)⟩

/-- The filesystem with exactly the old avatar file of `userOldW` on disk. -/
def fsOldW : FS := ⟨[oldAbsW], [], [], []⟩

/-- The part of `oldPathW` after `avatars/`. -/
def restW : Str := "7/old.png".data

/-- Claim C5: `delete_avatar` resolves the relative path to the absolute
location obtained by stripping `"avatars"` from the upload directory (under
the standard `<root>/avatars` configuration this is back under the configured
root: `UPLOAD_DIR ++ '/' :: rest`), raises 404 when that location is absent,
raises 500 when removal itself errors, and otherwise removes exactly that
file and returns no value. -/
theorem claim_C5_delete_contract (st : Settings) (fs : FS)
    (relp root rest : Str) :
    (deleteAbsPath st relp ∉ fs.files → deleteAbsPath st relp ∉ fs.dirs →
       delete_avatar st fs relp = (fs, .error ⟨404, detailNoFileS⟩, [])) ∧
    (deleteAbsPath st relp ∈ fs.files → deleteAbsPath st relp ∈ fs.removeFails →
       delete_avatar st fs relp = (fs, .error ⟨500, detailDeleteFailS⟩, [])) ∧
    (deleteAbsPath st relp ∈ fs.files → deleteAbsPath st relp ∉ fs.removeFails →
       delete_avatar st fs relp =
         ({ fs with files := fs.files.erase (deleteAbsPath st relp) }, .ok (),
          [Event.remove (deleteAbsPath st relp)])) ∧
    (st.UPLOAD_DIR = root ++ slashAvatarsS → ¬ avatarsS <:+: root →
       relp = avatarsS ++ '/' :: rest →
       deleteAbsPath st relp = st.UPLOAD_DIR ++ '/' :: rest) := by
  refine ⟨fun h1 h2 => delete_avatar_notFound st fs relp h1 h2,
          fun h1 h2 => delete_avatar_removeFail st fs relp h1 h2,
          fun h1 h2 => delete_avatar_ok st fs relp h1 h2,
          fun hcfg hinf hrel => ?_⟩
  subst hrel
  exact deleteAbsPath_std st root rest hcfg hinf

/-- Witness for C5: successful removal of a present file and the concrete
resolution of its absolute location. -/
theorem claim_C5_witness :
    delete_avatar stW fsOldW oldPathW =
      ({ fsOldW with files := fsOldW.files.erase (deleteAbsPath stW oldPathW) },
       .ok (), [Event.remove (deleteAbsPath stW oldPathW)]) ∧
    deleteAbsPath stW oldPathW = stW.UPLOAD_DIR ++ '/' :: restW :=
  ⟨(claim_C5_delete_contract stW fsOldW oldPathW rootW restW).2.2.1
      (by decide) (by decide),
   (claim_C5_delete_contract stW fsOldW oldPathW rootW restW).2.2.2
      (by decide) (by decide) (by decide)⟩

/-- Text of the path fragment `"avatars/7/"`. -/
def avatars7S : Str := "avatars/7/".data

/-- Text of the extension fragment `".png"`. -/
def dotPngS : Str := ".png".data

/-- Text of the URL fragment `"/static/avatars/7/"`. -/
def staticAvatars7S : Str := "/static/avatars/7/".data

/-- Claim C7: `get_avatar_url` is a pure string composition — the configured
base URL, the fixed `"/static/"` mount prefix, then the relative path — for
every input (it takes no file-system state and returns a plain string, so it
performs no I/O and cannot fail); in particular an `avatars/7/<id>.png` path
resolves to `{base_url}/static/avatars/7/<id>.png`. -/
theorem claim_C7_resolve_url (st : Settings) (p idStr : Str) :
    get_avatar_url st p = st.BASE_URL ++ staticPrefixS ++ p ∧
    get_avatar_url st (avatars7S ++ idStr ++ dotPngS) =
      st.BASE_URL ++ staticAvatars7S ++ idStr ++ dotPngS := by
  constructor
  · rfl
  · rw [get_avatar_url]
    have h : staticPrefixS ++ avatars7S = staticAvatars7S := by decide
    calc st.BASE_URL ++ staticPrefixS ++ (avatars7S ++ idStr ++ dotPngS)
        = st.BASE_URL ++ (staticPrefixS ++ avatars7S) ++ idStr ++ dotPngS := by
          simp [List.append_assoc]
      _ = st.BASE_URL ++ staticAvatars7S ++ idStr ++ dotPngS := by rw [h]

/-- Claim C4: every successful upload returns a relative path of exactly the
shape `avatars/<user_id>/<random-id>.<ext>` with `'/'` separators, the
extension being the one the `mime_to_ext` table assigns to the sniffed MIME
type; and the computation is host-OS independent: building the same path with
the Windows separator and then applying the source's `.replace("\\", "/")`
yields the identical string. -/
theorem claim_C4_path_shape (st : Settings) (sniff : Bytes → Option Str)
    (fs : FS) (uid : Nat) (uuidStr : Str) (content : Bytes) (m ext : Str)
    (hlen : content.length ≤ st.MAX_AVATAR_SIZE)
    (hsniff : sniff content = some m) (hm : m ∈ allowed_mime_types)
    (hext : mime_to_ext m = some ext)
    (hw : uploadFilePath st uid uuidStr ext ∉ fs.writeFails)
    (hu : '/' ∉ uuidStr) (hub : '\\' ∉ uuidStr) :
    (upload_avatar st sniff fs uid uuidStr content).2.1 =
      .ok (avatarsS ++ '/' :: (natStr uid ++ '/' :: (uuidStr ++ '.' :: ext))) ∧
    uploadRelPathWith '\\' uid uuidStr ext = uploadRelPathWith '/' uid uuidStr ext := by
  have heb : '\\' ∉ ext := (mime_to_ext_chars m ext hext).2
  constructor
  · rw [upload_avatar_ok st sniff fs uid uuidStr content m ext hlen hsniff hm hext hw]
    exact congrArg Except.ok (uploadRelPath_eq uid uuidStr ext hu hub heb)
  · rw [uploadRelPathWith_backslash uid uuidStr ext hu hub heb]
    rfl

/-- Witness for C4 at user 7, a concrete UUID and a PNG buffer. -/
theorem claim_C4_witness :
    (upload_avatar stW sniffPng fsW 7 uuidW contentW).2.1 =
      .ok (avatarsS ++ '/' :: (natStr 7 ++ '/' :: (uuidW ++ '.' :: pngS))) ∧
    uploadRelPathWith '\\' 7 uuidW pngS = uploadRelPathWith '/' 7 uuidW pngS :=
  claim_C4_path_shape stW sniffPng fsW 7 uuidW contentW mimePngS pngS
    (by decide) rfl (by decide) (by decide) (by decide) (by decide) (by decide)

/-- Claim C9: `delete_avatar` computes its root by removing every occurrence
of `"avatars"` from the configured upload directory (first conjunct: under
the standard configuration the `str.replace` leaves exactly `<root>/`), and
consequently upload-then-delete round-trips — the delete succeeds and removes
exactly the file the upload wrote, restoring the original file set. -/
theorem claim_C9_upload_delete_roundTrip (st : Settings) (root : Str)
    (sniff : Bytes → Option Str) (fs : FS) (uid : Nat) (uuidStr : Str)
    (content : Bytes) (m ext : Str)
    (hcfg : st.UPLOAD_DIR = root ++ slashAvatarsS)
    (hinf : ¬ avatarsS <:+: root)
    (hu : '/' ∉ uuidStr) (hub : '\\' ∉ uuidStr)
    (hlen : content.length ≤ st.MAX_AVATAR_SIZE)
    (hsniff : sniff content = some m) (hm : m ∈ allowed_mime_types)
    (hext : mime_to_ext m = some ext)
    (hw : uploadFilePath st uid uuidStr ext ∉ fs.writeFails)
    (hrf : uploadFilePath st uid uuidStr ext ∉ fs.removeFails) :
    pyReplace st.UPLOAD_DIR avatarsS emptyS = root ++ ['/'] ∧
    (upload_avatar st sniff fs uid uuidStr content).2.1 =
      .ok (uploadRelPath uid uuidStr ext) ∧
    delete_avatar st (upload_avatar st sniff fs uid uuidStr content).1
        (uploadRelPath uid uuidStr ext) =
      (⟨fs.files, userDir st uid :: fs.dirs, fs.removeFails, fs.writeFails⟩,
       .ok (), [Event.remove (uploadFilePath st uid uuidStr ext)]) := by
  have heb : '\\' ∉ ext := (mime_to_ext_chars m ext hext).2
  have habs : deleteAbsPath st (uploadRelPath uid uuidStr ext) =
      uploadFilePath st uid uuidStr ext :=
    deleteAbsPath_roundTrip st root uid uuidStr ext hcfg hinf hu hub heb
  have hup := upload_avatar_ok st sniff fs uid uuidStr content m ext
    hlen hsniff hm hext hw
  refine ⟨?_, ?_, ?_⟩
  · rw [hcfg]
    have := pyReplace_strip avatarsS (by rw [avatarsS]; decide)
      (by rw [avatarsS]; decide) root hinf
    simpa [slashAvatarsS, avatarsS] using this
  · rw [hup]
  · rw [hup]
    have hdel := delete_avatar_ok st
      ⟨uploadFilePath st uid uuidStr ext :: fs.files,
       userDir st uid :: fs.dirs, fs.removeFails, fs.writeFails⟩
      (uploadRelPath uid uuidStr ext)
      (by rw [habs]; exact List.mem_cons_self _ _)
      (by rw [habs]; exact hrf)
    rw [hdel, habs]
    simp [List.erase_cons_head]

/-- Witness for C9: concrete round trip under `stW`. -/
theorem claim_C9_witness :
    pyReplace stW.UPLOAD_DIR avatarsS emptyS = rootW ++ ['/'] ∧
    (upload_avatar stW sniffPng fsW 7 uuidW contentW).2.1 =
      .ok (uploadRelPath 7 uuidW pngS) ∧
    delete_avatar stW (upload_avatar stW sniffPng fsW 7 uuidW contentW).1
        (uploadRelPath 7 uuidW pngS) =
      (⟨fsW.files, userDir stW 7 :: fsW.dirs, fsW.removeFails, fsW.writeFails⟩,
       .ok (), [Event.remove (uploadFilePath stW 7 uuidW pngS)]) :=
  claim_C9_upload_delete_roundTrip stW rootW sniffPng fsW 7 uuidW contentW
    mimePngS pngS (by decide) (by decide) (by decide) (by decide) (by decide)
    rfl (by decide) (by decide) (by decide) (by decide)

/-- Claim C10: in the upload endpoint the user-existence check and the full
byte validation precede any disk mutation.  If the user id is unknown the
request fails 404 with the database, the file system and the mutation trace
untouched (for any read/commit environment); if the user exists but
validation fails (over-size, sniff error, or disallowed type — i.e.
`validate_file` returns any error), the request fails with that error, again
with no file or directory created, nothing deleted, and the recorded avatar
path unchanged. -/
theorem claim_C10_checks_before_mutation (st : Settings)
    (sniff : Bytes → Option Str) (db : List User) (fs : FS) (uid : Nat)
    (uuidStr : Str) (content : Bytes) (readFails commitFails : Bool)
    (user : User) (e : HTTPException) :
    (dbGet db uid = none →
       upload_user_avatar st sniff readFails commitFails db fs uid uuidStr content =
         (db, fs, [], .error ⟨404, detailNoUserS⟩)) ∧
    (dbGet db uid = some user → validate_file st sniff content = .error e →
       upload_user_avatar st sniff false commitFails db fs uid uuidStr content =
         (db, fs, [], .error e)) := by
  constructor
  · intro h
    rw [upload_user_avatar, h]
  · intro hget hval
    rw [upload_user_avatar, hget]
    rw [upload_avatar_invalid st sniff fs uid uuidStr content e hval]
    simp

/-- Witness for C10: unknown user id on an empty database, and a failing
validation for an existing user, both leave every state component unchanged. -/
theorem claim_C10_witness :
    upload_user_avatar stW sniffPng true true [] fsW 7 uuidW contentW =
      ([], fsW, [], .error ⟨404, detailNoUserS⟩) ∧
    upload_user_avatar stW sniffText false true [userOldW] fsOldW 7 uuidW contentW =
      ([userOldW], fsOldW, [], .error ⟨400, detailUnsupportedS⟩) :=
  ⟨(claim_C10_checks_before_mutation stW sniffPng [] fsW 7 uuidW contentW
      true true userOldW ⟨400, detailUnsupportedS⟩).1 rfl,
   (claim_C10_checks_before_mutation stW sniffText [userOldW] fsOldW 7 uuidW
      contentW false true userOldW ⟨400, detailUnsupportedS⟩).2 rfl rfl⟩

/-- Claim C8: if the user's recorded avatar path points to a file absent on
disk, the upload endpoint fails 404 (from `delete_avatar`) only after the new
file has been written: the final state keeps the new file (an orphan, first
component of `files`), the user's row is unchanged (`db` returned as is), and
no compensation runs (the trace holds exactly the mkdir and the write, no
remove, no commit) — for either commit environment. -/
theorem claim_C8_orphan_on_missing_old (st : Settings)
    (sniff : Bytes → Option Str) (db : List User) (fs : FS) (uid : Nat)
    (uuidStr : Str) (content : Bytes) (commitFails : Bool) (user : User)
    (oldp m ext : Str)
    (hget : dbGet db uid = some user)
    (hold : user.avatar_path = some oldp) (holdne : oldp ≠ [])
    (hlen : content.length ≤ st.MAX_AVATAR_SIZE)
    (hsniff : sniff content = some m) (hm : m ∈ allowed_mime_types)
    (hext : mime_to_ext m = some ext)
    (hw : uploadFilePath st uid uuidStr ext ∉ fs.writeFails)
    (h1 : deleteAbsPath st oldp ∉ fs.files)
    (h2 : deleteAbsPath st oldp ∉ fs.dirs)
    (hne1 : deleteAbsPath st oldp ≠ uploadFilePath st uid uuidStr ext)
    (hne2 : deleteAbsPath st oldp ≠ userDir st uid) :
    upload_user_avatar st sniff false commitFails db fs uid uuidStr content =
      (db, ⟨uploadFilePath st uid uuidStr ext :: fs.files,
            userDir st uid :: fs.dirs, fs.removeFails, fs.writeFails⟩,
       [Event.mkdir (userDir st uid),
        Event.write (uploadFilePath st uid uuidStr ext)],
       .error ⟨404, detailNoFileS⟩) := by
  have htr : optTruthy (some oldp) = true := by
    simp [optTruthy]
    exact holdne
  simp only [upload_user_avatar, hget,
    upload_avatar_ok st sniff fs uid uuidStr content m ext hlen hsniff hm hext hw,
    hold, htr, Option.getD_some]
  have hdel := delete_avatar_notFound st
    ⟨uploadFilePath st uid uuidStr ext :: fs.files,
     userDir st uid :: fs.dirs, fs.removeFails, fs.writeFails⟩ oldp
    (by
      intro hc
      rcases List.mem_cons.mp hc with h | h
      · exact hne1 h
      · exact h1 h)
    (by
      intro hc
      rcases List.mem_cons.mp hc with h | h
      · exact hne2 h
      · exact h2 h)
  rw [hdel]
  simp

/-- Witness for C8: user 7 has `oldPathW` recorded but the disk is empty; the
request 404s and leaves the new file as an orphan with the row unchanged. -/
theorem claim_C8_witness :
    upload_user_avatar stW sniffPng false true [userOldW] fsW 7 uuidW contentW =
      ([userOldW], ⟨uploadFilePath stW 7 uuidW pngS :: fsW.files,
                    userDir stW 7 :: fsW.dirs, fsW.removeFails, fsW.writeFails⟩,
       [Event.mkdir (userDir stW 7), Event.write (uploadFilePath stW 7 uuidW pngS)],
       .error ⟨404, detailNoFileS⟩) :=
  claim_C8_orphan_on_missing_old stW sniffPng [userOldW] fsW 7 uuidW contentW
    true userOldW oldPathW mimePngS pngS rfl rfl (by decide) (by decide) rfl
    (by decide) rfl (by decide) (by decide) (by decide) (by decide) (by decide)

/-- Claim C1: the coordinated replace protocol of the upload endpoint, under
the standard configuration, with an existing user whose old avatar file is
present and removable.  With a succeeding commit the endpoint (in this
order, per the trace) writes the new file, deletes the old file, commits the
new path, and returns the path and URL; with a failing commit it writes the
new file, deletes the old file, then deletes the just-uploaded new file
(trace ends with that remove) and surfaces the persistence error (500), the
final file set holding neither new nor old file and the database unchanged. -/
theorem claim_C1_replace_protocol (st : Settings) (root : Str)
    (sniff : Bytes → Option Str) (db : List User) (fs : FS) (uid : Nat)
    (uuidStr : Str) (content : Bytes) (user : User) (oldp m ext : Str)
    (hcfg : st.UPLOAD_DIR = root ++ slashAvatarsS)
    (hinf : ¬ avatarsS <:+: root)
    (hu : '/' ∉ uuidStr) (hub : '\\' ∉ uuidStr)
    (hget : dbGet db uid = some user)
    (hold : user.avatar_path = some oldp) (holdne : oldp ≠ [])
    (hlen : content.length ≤ st.MAX_AVATAR_SIZE)
    (hsniff : sniff content = some m) (hm : m ∈ allowed_mime_types)
    (hext : mime_to_ext m = some ext)
    (hw : uploadFilePath st uid uuidStr ext ∉ fs.writeFails)
    (hofiles : deleteAbsPath st oldp ∈ fs.files)
    (hone : deleteAbsPath st oldp ≠ uploadFilePath st uid uuidStr ext)
    (horf : deleteAbsPath st oldp ∉ fs.removeFails)
    (hnrf : uploadFilePath st uid uuidStr ext ∉ fs.removeFails) :
    (upload_user_avatar st sniff false false db fs uid uuidStr content =
       (dbSet db uid (some (uploadRelPath uid uuidStr ext)),
        ⟨uploadFilePath st uid uuidStr ext :: fs.files.erase (deleteAbsPath st oldp),
         userDir st uid :: fs.dirs, fs.removeFails, fs.writeFails⟩,
        [Event.mkdir (userDir st uid),
         Event.write (uploadFilePath st uid uuidStr ext),
         Event.remove (deleteAbsPath st oldp), Event.commit],
        .ok ⟨msgUploadOkS, uid, uploadRelPath uid uuidStr ext,
             get_avatar_url st (uploadRelPath uid uuidStr ext)⟩)) ∧
    (upload_user_avatar st sniff false true db fs uid uuidStr content =
       (db,
        ⟨fs.files.erase (deleteAbsPath st oldp),
         userDir st uid :: fs.dirs, fs.removeFails, fs.writeFails⟩,
        [Event.mkdir (userDir st uid),
         Event.write (uploadFilePath st uid uuidStr ext),
         Event.remove (deleteAbsPath st oldp),
         Event.remove (uploadFilePath st uid uuidStr ext)],
        .error ⟨500, detailPersistFailS⟩)) := by
  have heb : '\\' ∉ ext := (mime_to_ext_chars m ext hext).2
  have habs : deleteAbsPath st (uploadRelPath uid uuidStr ext) =
      uploadFilePath st uid uuidStr ext :=
    deleteAbsPath_roundTrip st root uid uuidStr ext hcfg hinf hu hub heb
  have htr : optTruthy (some oldp) = true := by
    simp [optTruthy]
    exact holdne
  have herase : (uploadFilePath st uid uuidStr ext :: fs.files).erase
      (deleteAbsPath st oldp) =
      uploadFilePath st uid uuidStr ext :: fs.files.erase (deleteAbsPath st oldp) :=
    List.erase_cons_tail (by simp [beq_iff_eq]; exact fun h => hone h.symm)
  have hdelOld := delete_avatar_ok st
    ⟨uploadFilePath st uid uuidStr ext :: fs.files,
     userDir st uid :: fs.dirs, fs.removeFails, fs.writeFails⟩ oldp
    (List.mem_cons_of_mem _ hofiles) horf
  rw [herase] at hdelOld
  have hdelNew := delete_avatar_ok st
    ⟨uploadFilePath st uid uuidStr ext :: fs.files.erase (deleteAbsPath st oldp),
     userDir st uid :: fs.dirs, fs.removeFails, fs.writeFails⟩
    (uploadRelPath uid uuidStr ext)
    (by rw [habs]; exact List.mem_cons_self _ _)
    (by rw [habs]; exact hnrf)
  rw [habs] at hdelNew
  rw [show (uploadFilePath st uid uuidStr ext ::
        fs.files.erase (deleteAbsPath st oldp)).erase
        (uploadFilePath st uid uuidStr ext) =
      fs.files.erase (deleteAbsPath st oldp)
    from List.erase_cons_head _ _] at hdelNew
  constructor
  · simp only [upload_user_avatar, hget,
      upload_avatar_ok st sniff fs uid uuidStr content m ext hlen hsniff hm hext hw,
      hold, htr, Option.getD_some, hdelOld, finishUpload]
    simp
  · simp only [upload_user_avatar, hget,
      upload_avatar_ok st sniff fs uid uuidStr content m ext hlen hsniff hm hext hw,
      hold, htr, Option.getD_some, hdelOld, finishUpload, hdelNew]
    simp

/-- Witness for C1: user 7 replaces `oldPathW` (present on disk) under `stW`,
exercised for both commit outcomes. -/
theorem claim_C1_witness :
    (upload_user_avatar stW sniffPng false false [userOldW] fsOldW 7 uuidW contentW =
       (dbSet [userOldW] 7 (some (uploadRelPath 7 uuidW pngS)),
        ⟨uploadFilePath stW 7 uuidW pngS :: fsOldW.files.erase (deleteAbsPath stW oldPathW),
         userDir stW 7 :: fsOldW.dirs, fsOldW.removeFails, fsOldW.writeFails⟩,
        [Event.mkdir (userDir stW 7),
         Event.write (uploadFilePath stW 7 uuidW pngS),
         Event.remove (deleteAbsPath stW oldPathW), Event.commit],
        .ok ⟨msgUploadOkS, 7, uploadRelPath 7 uuidW pngS,
             get_avatar_url stW (uploadRelPath 7 uuidW pngS)⟩)) ∧
    (upload_user_avatar stW sniffPng false true [userOldW] fsOldW 7 uuidW contentW =
       ([userOldW],
        ⟨fsOldW.files.erase (deleteAbsPath stW oldPathW),
         userDir stW 7 :: fsOldW.dirs, fsOldW.removeFails, fsOldW.writeFails⟩,
        [Event.mkdir (userDir stW 7),
         Event.write (uploadFilePath stW 7 uuidW pngS),
         Event.remove (deleteAbsPath stW oldPathW),
         Event.remove (uploadFilePath stW 7 uuidW pngS)],
        .error ⟨500, detailPersistFailS⟩)) :=
  claim_C1_replace_protocol stW rootW sniffPng [userOldW] fsOldW 7 uuidW
    contentW userOldW oldPathW mimePngS pngS (by decide) (by decide)
    (by decide) (by decide) rfl rfl (by decide) (by decide) rfl (by decide)
    rfl (by decide) (by decide) (by decide) (by decide) (by decide)

/-- Counterexample to claim C6 as stated: for a concrete existing user with
no avatar set, `DELETE /users/{id}/avatar` returns status 400 (detail
`"用户暂无头像"`, `main.py` line 137), not 404. -/
theorem claim_C6_counterexample :
    delete_user_avatar stW false [userNoAvatarW] fsW 1 =
      ([userNoAvatarW], fsW, [], .error ⟨400, detailNoAvatarS⟩) ∧
    (400 : Nat) ≠ 404 :=
  ⟨rfl, by decide⟩

/-- Claim C6 (amended): the delete endpoint returns 404 when the user does
not exist; 400 (not 404) when the user exists but has no truthy avatar path
set; 404 when the recorded avatar file is missing on disk; and 200 with a
message on success. -/
theorem claim_C6_amended_delete_statuses (st : Settings) (commitFails : Bool)
    (db : List User) (fs : FS) (uid : Nat) (user : User) (p : Str) :
    (dbGet db uid = none →
       delete_user_avatar st commitFails db fs uid =
         (db, fs, [], .error ⟨404, detailNoUserS⟩)) ∧
    (dbGet db uid = some user → optTruthy user.avatar_path = false →
       delete_user_avatar st commitFails db fs uid =
         (db, fs, [], .error ⟨400, detailNoAvatarS⟩)) ∧
    (dbGet db uid = some user → user.avatar_path = some p → p ≠ [] →
       deleteAbsPath st p ∉ fs.files → deleteAbsPath st p ∉ fs.dirs →
       delete_user_avatar st commitFails db fs uid =
         (db, fs, [], .error ⟨404, detailNoFileS⟩)) ∧
    (dbGet db uid = some user → user.avatar_path = some p → p ≠ [] →
       deleteAbsPath st p ∈ fs.files → deleteAbsPath st p ∉ fs.removeFails →
       delete_user_avatar st false db fs uid =
         (dbSet db uid none,
          { fs with files := fs.files.erase (deleteAbsPath st p) },
          [Event.remove (deleteAbsPath st p), Event.commit],
          .ok ⟨msgDeleteOkS, uid⟩)) := by
  refine ⟨?_, ?_, ?_, ?_⟩
  · intro h
    rw [delete_user_avatar, h]
  · intro hget hfalse
    rw [delete_user_avatar, hget]
    simp [hfalse]
  · intro hget hp hpne h1 h2
    have htr : optTruthy (some p) = true := by
      simp [optTruthy]
      exact hpne
    simp only [delete_user_avatar, hget, hp, htr, Option.getD_some,
      delete_avatar_notFound st fs p h1 h2]
    simp
  · intro hget hp hpne h1 h2
    have htr : optTruthy (some p) = true := by
      simp [optTruthy]
      exact hpne
    simp only [delete_user_avatar, hget, hp, htr, Option.getD_some,
      delete_avatar_ok st fs p h1 h2]
    simp

/-- Witness for the amended C6: concrete 400 on a user with no avatar, and a
concrete 200 success clearing the row and removing the file. -/
theorem claim_C6_witness :
    delete_user_avatar stW true [userNoAvatarW] fsW 1 =
      ([userNoAvatarW], fsW, [], .error ⟨400, detailNoAvatarS⟩) ∧
    delete_user_avatar stW false [userOldW] fsOldW 7 =
      (dbSet [userOldW] 7 none,
       { fsOldW with files := fsOldW.files.erase (deleteAbsPath stW oldPathW) },
       [Event.remove (deleteAbsPath stW oldPathW), Event.commit],
       .ok ⟨msgDeleteOkS, 7⟩) :=
  ⟨(claim_C6_amended_delete_statuses stW true [userNoAvatarW] fsW 1
      userNoAvatarW oldPathW).2.1 rfl rfl,
   (claim_C6_amended_delete_statuses stW false [userOldW] fsOldW 7
      userOldW oldPathW).2.2.2 rfl rfl (by decide) (by decide) (by decide)⟩
